import Mathlib

/-!
Shallow embedding of `src/iox/reader.go` (package `iox`): the channel-to-
stream adapters `readerChanString` and `readerChanByteSlice`, their `Read`
and `Close` methods, and the front-door dispatcher `ReaderFromInterface`.

Bytes are modelled as `Nat`, byte slices and Go strings as `List Nat`
(a Go string is an immutable byte sequence).  A channel is modelled by the
ordered list of values sent but not yet received plus a closed flag; a
receive on an open, drained channel blocks forever, which a `Read` call
reports as the `blocked` outcome (the call never returns).  A Go runtime
fault (such as a slice-bounds violation, or closing an already-closed
channel) is the `fault` outcome / `none`.
-/

/-- A Go string, viewed as its byte sequence. -/
abbrev GoString := List Nat

/-- The Go conversion `[]byte(str)`: yields the bytes of the string. -/
def stringToBytes (s : GoString) : List Nat := s

/-- State of a Go channel of byte-chunk values: the values sent but not yet
received, in send order, and whether the channel has been closed. -/
structure ChanState where
  sent : List (List Nat)
  closed : Bool
deriving DecidableEq

/-- The Go receive `v, ok := <-ch`.  While values remain it yields the next
value with `ok = true`; on a closed, drained channel it yields the zero
value with `ok = false`; on an open, drained channel it blocks (`none`). -/
def recvChan (c : ChanState) : Option (List Nat × Bool × ChanState) :=
  match c.sent with
  | v :: rest => some (v, true, ⟨rest, c.closed⟩)
  | [] => if c.closed then some ([], false, c) else none

/-- The Go builtin `copy(dst, src)`: copies `min (len dst) (len src)` bytes
onto the front of `dst`; returns the count and the new contents of `dst`. -/
def goCopy (dst src : List Nat) : Nat × List Nat :=
  (min dst.length src.length,
    src.take (min dst.length src.length) ++ dst.drop (min dst.length src.length))

/-- Adapter state: the wrapped channel `ch` and the residual buffer `buf`
(bytes received from the channel but not yet delivered to a caller). -/
structure RState where
  ch : ChanState
  buf : List Nat
deriving DecidableEq

/-- Outcome of one `Read` call: a normal return carrying `n`, whether the
error was `io.EOF`, the destination buffer contents after the call, and the
new adapter state; or a runtime fault; or blocking forever on the receive. -/
inductive ReadOutcome where
  | ok : Nat → Bool → List Nat → RState → ReadOutcome
  | fault : ReadOutcome
  | blocked : ReadOutcome
deriving DecidableEq

/-- Lines 96-105 of `readerChanString.Read`: the single channel receive,
`bytes := []byte(str)`, the copy of the fresh chunk onto the front of `p`
(`w2 := copy(p, bytes)`), `r.buf = bytes[w2:]`, and the return value
`(w + w2, nil-or-EOF)`.  `w` is the count already copied from the residual
and `p` holds the destination contents after that residual copy. -/
def readFinishS (w : Nat) (p : List Nat) (ch : ChanState) : ReadOutcome :=
  match recvChan ch with
  | none => ReadOutcome.blocked
  | some (str, opn, ch2) =>
    let bytes := stringToBytes str
    let w2 := (goCopy p bytes).1
    let p2 := (goCopy p bytes).2
    let buf2 := bytes.drop w2
    if opn || !buf2.isEmpty then
      ReadOutcome.ok (w + w2) false p2 ⟨ch2, buf2⟩
    else
      ReadOutcome.ok (w + w2) true p2 ⟨ch2, buf2⟩

/-- Lines 173-181 of `readerChanByteSlice.Read`: identical to
`readFinishS` except that the received value is already a byte slice. -/
def readFinishB (w : Nat) (p : List Nat) (ch : ChanState) : ReadOutcome :=
  match recvChan ch with
  | none => ReadOutcome.blocked
  | some (bytes, opn, ch2) =>
    let w2 := (goCopy p bytes).1
    let p2 := (goCopy p bytes).2
    let buf2 := bytes.drop w2
    if opn || !buf2.isEmpty then
      ReadOutcome.ok (w + w2) false p2 ⟨ch2, buf2⟩
    else
      ReadOutcome.ok (w + w2) true p2 ⟨ch2, buf2⟩

/-- `readerChanString.Read` (lines 81-106).  Branches on the residual:
empty residual skips to the receive; a residual that fits the destination
(`len(p) >= len(r.buf)`) is copied out whole, then the receive follows; an
oversized residual copies `len(p)` bytes and then evaluates the slice
`r.buf[len(p):0]`, which is empty when `len(p) = 0` and is a slice-bounds
runtime fault when `len(p) > 0` (low index exceeds high index). -/
def readerChanStringRead (r : RState) (p : List Nat) : ReadOutcome :=
  if r.buf.length = 0 then
    readFinishS 0 p r.ch
  else if r.buf.length ≤ p.length then
    readFinishS (goCopy p r.buf).1 (goCopy p r.buf).2 r.ch
  else if p.length = 0 then
    ReadOutcome.ok (goCopy p (r.buf.take p.length)).1 false
      (goCopy p (r.buf.take p.length)).2 ⟨r.ch, []⟩
  else
    ReadOutcome.fault

/-- `readerChanByteSlice.Read` (lines 158-182): the same algorithm, on a
channel of byte slices. -/
def readerChanByteSliceRead (r : RState) (p : List Nat) : ReadOutcome :=
  if r.buf.length = 0 then
    readFinishB 0 p r.ch
  else if r.buf.length ≤ p.length then
    readFinishB (goCopy p r.buf).1 (goCopy p r.buf).2 r.ch
  else if p.length = 0 then
    ReadOutcome.ok (goCopy p (r.buf.take p.length)).1 false
      (goCopy p (r.buf.take p.length)).2 ⟨r.ch, []⟩
  else
    ReadOutcome.fault

/-- The Go builtin `close(ch)`: marks the channel closed; closing an
already-closed channel is a runtime fault (`none`). -/
def closeChan (c : ChanState) : Option ChanState :=
  if c.closed then none else some ⟨c.sent, true⟩

/-- `readerChanString.Close` (lines 108-111): closes the wrapped channel
and returns a nil error; `some` is success, `none` the double-close fault. -/
def readerChanStringClose (c : ChanState) : Option ChanState :=
  closeChan c

/-- `readerChanByteSlice.Close` (lines 184-187). -/
def readerChanByteSliceClose (c : ChanState) : Option ChanState :=
  closeChan c

/-- A sequence of `Read` calls with destination buffers `ps`, threading the
adapter state; stops at the first fault or block.  On success returns, per
call, the count written, the end-of-stream flag and the destination
contents after the call. -/
inductive RunOutcome where
  | ok : List (Nat × Bool × List Nat) → RunOutcome
  | fault : RunOutcome
  | blocked : RunOutcome
deriving DecidableEq

/-- Run `rd` over a list of destination buffers, threading the state. -/
def runReads (rd : RState → List Nat → ReadOutcome) :
    RState → List (List Nat) → RunOutcome
  | _, [] => RunOutcome.ok []
  | s, p :: ps =>
    match rd s p with
    | ReadOutcome.ok n eof p2 s2 =>
      match runReads rd s2 ps with
      | RunOutcome.ok rest => RunOutcome.ok ((n, eof, p2) :: rest)
      | RunOutcome.fault => RunOutcome.fault
      | RunOutcome.blocked => RunOutcome.blocked
    | ReadOutcome.fault => RunOutcome.fault
    | ReadOutcome.blocked => RunOutcome.blocked

/-- A Go value handed to the front-door dispatcher, as a sum over the shapes
the type switch of `ReaderFromInterface` distinguishes; `unsupported`
covers every other runtime type, tagged by its type name. -/
inductive GoValue where
  | str : GoString → GoValue
  | byteSlice : List Nat → GoValue
  | ioReader : GoValue
  | bytesBuffer : List Nat → GoValue
  | recvChanString : ChanState → GoValue
  | chanString : ChanState → GoValue
  | recvChanByteSlice : ChanState → GoValue
  | chanByteSlice : ChanState → GoValue
  | unsupported : String → GoValue
deriving DecidableEq

/-- The fault value `ReaderUnrefinableFromInterface{wat: y}` thrown by the
dispatcher: it carries the rejected input (hence its runtime type). -/
structure ReaderUnrefinableFromInterface where
  wat : GoValue
deriving DecidableEq

/-- The reader produced by each constructor the dispatcher can select. -/
inductive ReaderKind where
  | fromString : GoString → ReaderKind
  | fromByteSlice : List Nat → ReaderKind
  | passthrough : ReaderKind
  | bufferPtr : List Nat → ReaderKind
  | chanReadonlyString : ChanState → ReaderKind
  | chanString : ChanState → ReaderKind
  | chanReadonlyByteSlice : ChanState → ReaderKind
  | chanByteSlice : ChanState → ReaderKind
deriving DecidableEq

/-- `ReaderFromString` (line 64). -/
def ReaderFromString (s : GoString) : ReaderKind :=
  ReaderKind.fromString s

/-- `ReaderFromByteSlice` (line 68). -/
def ReaderFromByteSlice (b : List Nat) : ReaderKind :=
  ReaderKind.fromByteSlice b

/-- `ReaderFromChanString` (line 72). -/
def ReaderFromChanString (c : ChanState) : ReaderKind :=
  ReaderKind.chanString c

/-- `ReaderFromChanReadonlyString` (line 113). -/
def ReaderFromChanReadonlyString (c : ChanState) : ReaderKind :=
  ReaderKind.chanReadonlyString c

/-- `ReaderFromChanByteSlice` (line 149). -/
def ReaderFromChanByteSlice (c : ChanState) : ReaderKind :=
  ReaderKind.chanByteSlice c

/-- `ReaderFromChanReadonlyByteSlice` (line 189). -/
def ReaderFromChanReadonlyByteSlice (c : ChanState) : ReaderKind :=
  ReaderKind.chanReadonlyByteSlice c

/-- `ReaderFromInterface` (lines 41-62): the type switch.  The default arm
throws `ReaderUnrefinableFromInterface{wat: y}`, modelled as `error`. -/
def ReaderFromInterface : GoValue → Except ReaderUnrefinableFromInterface ReaderKind
  | GoValue.str y => Except.ok (ReaderFromString y)
  | GoValue.byteSlice y => Except.ok (ReaderFromByteSlice y)
  | GoValue.ioReader => Except.ok ReaderKind.passthrough
  | GoValue.bytesBuffer y => Except.ok (ReaderKind.bufferPtr y)
  | GoValue.recvChanString y => Except.ok (ReaderFromChanReadonlyString y)
  | GoValue.chanString y => Except.ok (ReaderFromChanString y)
  | GoValue.recvChanByteSlice y => Except.ok (ReaderFromChanReadonlyByteSlice y)
  | GoValue.chanByteSlice y => Except.ok (ReaderFromChanByteSlice y)
  | GoValue.unsupported t => Except.error ⟨GoValue.unsupported t⟩

/-! Theorems about the claims. -/

/-- C1: order preservation fails on the code.  Producer sends "abc" then
"de" and closes.  Reading with capacities 2 then 4 succeeds, but the second
call copies the fresh chunk onto the front of the destination, overwriting
the residual byte 99 already copied there, and reports 3 bytes written, so
the delivered bytes are not the concatenation of the chunks.  Moreover with
capacity-1 reads (chunk "abc", capacities 1,1) the second call is a
slice-bounds runtime fault, so the bytes are never delivered at all. -/
theorem c1_order_preservation_fails_on_code :
    runReads readerChanStringRead ⟨⟨[[97, 98, 99], [100, 101]], true⟩, []⟩
        [[0, 0], [0, 0, 0, 0]]
      = RunOutcome.ok [(2, false, [97, 98]), (3, false, [100, 101, 0, 0])]
    ∧ List.take 2 [97, 98] ++ List.take 3 [100, 101, 0, 0]
        ≠ [97, 98, 99] ++ [100, 101]
    ∧ runReads readerChanStringRead ⟨⟨[[97, 98, 99]], true⟩, []⟩ [[0], [0]]
      = RunOutcome.fault := by
  decide

/-- C2: the returned count can exceed the destination capacity.  With
residual [99] and pending chunk "xyz", a read into a 2-byte destination
returns n = 3 > 2: the residual byte is copied, then the whole receive copy
count is added on top. -/
theorem c2_count_can_exceed_capacity :
    readerChanStringRead ⟨⟨[[120, 121, 122]], true⟩, [99]⟩ [0, 0]
      = ReadOutcome.ok 3 false [120, 121] ⟨⟨[], true⟩, [122]⟩
    ∧ ¬ 3 ≤ ([0, 0] : List Nat).length := by
  decide

/-- C3: the undersized-destination branch is a runtime fault, not the
specified partial copy.  Whenever the residual is longer than a non-empty
destination, `r.buf = r.buf[len(p):0]` has its low index above its high
index and the call faults instead of returning `(cap, no EOF)`. -/
theorem c3_undersized_branch_faults (r : RState) (p : List Nat)
    (h0 : 0 < p.length) (h1 : p.length < r.buf.length) :
    readerChanStringRead r p = ReadOutcome.fault
    ∧ readerChanByteSliceRead r p = ReadOutcome.fault := by
  constructor
  · unfold readerChanStringRead
    rw [if_neg (by omega), if_neg (by omega), if_neg (by omega)]
  · unfold readerChanByteSliceRead
    rw [if_neg (by omega), if_neg (by omega), if_neg (by omega)]

/-- Witness for C3: residual "abc" (3 bytes), destination capacity 2. -/
theorem c3_undersized_branch_faults_witness :
    readerChanStringRead ⟨⟨[], false⟩, [97, 98, 99]⟩ [0, 0] = ReadOutcome.fault
    ∧ readerChanByteSliceRead ⟨⟨[], false⟩, [97, 98, 99]⟩ [0, 0] = ReadOutcome.fault :=
  c3_undersized_branch_faults ⟨⟨[], false⟩, [97, 98, 99]⟩ [0, 0]
    (by decide) (by decide)

/-- C5 counterexample: with "ab" and "cd" sent and the channel closed, the
first read into a 3-byte destination performs exactly one receive and
returns 2 bytes ("ab"), not the 3 bytes ("abc") the claim states. -/
theorem c5_scenario_counterexample :
    readerChanStringRead ⟨⟨[[97, 98], [99, 100]], true⟩, []⟩ [0, 0, 0]
      = ReadOutcome.ok 2 false [97, 98, 0] ⟨⟨[[99, 100]], true⟩, []⟩
    ∧ (2 : Nat) ≠ 3 := by
  decide

/-- C5 amended: each call performs exactly one receive, so the scenario
takes three reads: call 1 writes "ab" (2 bytes, no end-of-stream), call 2
writes "cd" (2 bytes, no end-of-stream), call 3 writes 0 bytes with
end-of-stream = true. -/
theorem c5_scenario_amended :
    runReads readerChanStringRead ⟨⟨[[97, 98], [99, 100]], true⟩, []⟩
        [[0, 0, 0], [0, 0, 0], [0, 0, 0]]
      = RunOutcome.ok
          [(2, false, [97, 98, 0]), (2, false, [99, 100, 0]), (0, true, [0, 0, 0])] := by
  decide

/-- C6: a zero-length chunk received while the channel remains open does
yield (0, no end-of-stream), but the second half of the claim fails on the
code: sending "" then "abc" then closing, and reading with capacity-1
buffers, faults on the third call (residual "bc" longer than the
destination), so the non-empty chunk is never delivered complete. -/
theorem c6_zero_length_chunk_then_fault :
    readerChanStringRead ⟨⟨[[]], false⟩, []⟩ [0]
      = ReadOutcome.ok 0 false [0] ⟨⟨[], false⟩, []⟩
    ∧ runReads readerChanStringRead ⟨⟨[[], [97, 98, 99]], true⟩, []⟩ [[0], [0], [0]]
      = RunOutcome.fault := by
  decide

/-- C7: the first close of an open channel succeeds and returns a nil
error; a second close on the now-closed channel is the double-close fault,
surfaced to the caller, for both closable adapters. -/
theorem c7_double_close_faults (c : ChanState) (h : c.closed = false) :
    readerChanStringClose c = some ⟨c.sent, true⟩
    ∧ readerChanStringClose ⟨c.sent, true⟩ = none
    ∧ readerChanByteSliceClose c = some ⟨c.sent, true⟩
    ∧ readerChanByteSliceClose ⟨c.sent, true⟩ = none := by
  simp [readerChanStringClose, readerChanByteSliceClose, closeChan, h]

/-- Witness for C7: an open, drained channel. -/
theorem c7_double_close_faults_witness :
    readerChanStringClose ⟨[], false⟩ = some ⟨[], true⟩
    ∧ readerChanStringClose ⟨[], true⟩ = none
    ∧ readerChanByteSliceClose ⟨[], false⟩ = some ⟨[], true⟩
    ∧ readerChanByteSliceClose ⟨[], true⟩ = none :=
  c7_double_close_faults ⟨[], false⟩ rfl

/-- C8: the dispatcher faults, with a typed fault carrying the rejected
input, exactly on inputs matching none of the supported shapes; every
supported shape yields a reader without fault. -/
theorem c8_dispatch_fault_iff_unsupported (v : GoValue) :
    (∃ t, v = GoValue.unsupported t ∧ ReaderFromInterface v = Except.error ⟨v⟩)
    ∨ ((∀ t, v ≠ GoValue.unsupported t) ∧ ∃ k, ReaderFromInterface v = Except.ok k) := by
  cases v
  case unsupported t => exact Or.inl ⟨t, rfl, rfl⟩
  all_goals exact Or.inr ⟨fun t h => GoValue.noConfusion h, ⟨_, rfl⟩⟩

/-- C10: a zero-capacity read with a non-empty residual returns
(0, no end-of-stream) without touching the channel, but as a side effect
sets the residual to `r.buf[0:0]`, discarding its bytes: the resulting
state is exactly the state with the same channel and an empty residual, so
the discarded bytes can never surface in any later read. -/
theorem c10_zero_cap_discards_residual (ch : ChanState) (buf : List Nat)
    (h : buf ≠ []) :
    readerChanStringRead ⟨ch, buf⟩ [] = ReadOutcome.ok 0 false [] ⟨ch, []⟩
    ∧ readerChanByteSliceRead ⟨ch, buf⟩ [] = ReadOutcome.ok 0 false [] ⟨ch, []⟩ := by
  have hb : ¬ buf.length = 0 := fun hl => h (List.length_eq_zero.mp hl)
  constructor
  · unfold readerChanStringRead
    rw [if_neg hb, if_neg (by simp [Nat.le_zero, hb])]
    simp [goCopy]
  · unfold readerChanByteSliceRead
    rw [if_neg hb, if_neg (by simp [Nat.le_zero, hb])]
    simp [goCopy]

/-- Witness for C10: residual [5] on a closed, drained channel. -/
theorem c10_zero_cap_discards_residual_witness :
    readerChanStringRead ⟨⟨[], true⟩, [5]⟩ [] = ReadOutcome.ok 0 false [] ⟨⟨[], true⟩, []⟩
    ∧ readerChanByteSliceRead ⟨⟨[], true⟩, [5]⟩ [] = ReadOutcome.ok 0 false [] ⟨⟨[], true⟩, []⟩ :=
  c10_zero_cap_discards_residual ⟨[], true⟩ [5] (by decide)

/-- In the post-receive tail of Read, the EOF error is returned exactly
when the receive observed the channel closed and drained; the residual it
leaves is then empty, and a non-empty new residual forces a nil error. -/
theorem readFinishS_ok_eof (w : Nat) (p : List Nat) (ch : ChanState)
    (n : Nat) (eof : Bool) (p2 : List Nat) (s2 : RState)
    (h : readFinishS w p ch = ReadOutcome.ok n eof p2 s2) :
    (eof = true ↔ (ch.sent = [] ∧ ch.closed = true ∧ s2.buf = []))
    ∧ (s2.buf ≠ [] → eof = false) := by
  rcases ch with ⟨sent, closed⟩
  cases sent with
  | nil =>
    cases closed with
    | false => simp [readFinishS, recvChan] at h
    | true =>
      simp [readFinishS, recvChan, goCopy, stringToBytes] at h
      obtain ⟨hn, heof, hp2, hs2⟩ := h
      subst heof
      subst hs2
      simp
  | cons v rest =>
    simp [readFinishS, recvChan, stringToBytes] at h
    obtain ⟨hn, heof, hp2, hs2⟩ := h
    subst heof
    subst hs2
    simp

/-- C4: for every Read call that returns, EOF is signaled iff the call
reached the channel receive (the residual fit the destination), the receive
observed the channel closed and drained, and the residual is empty at the
end of the call; in particular EOF is never signaled with a non-empty
residual. -/
theorem c4_eof_iff_closed_drained (s : RState) (p : List Nat)
    (n : Nat) (eof : Bool) (p2 : List Nat) (s2 : RState)
    (h : readerChanStringRead s p = ReadOutcome.ok n eof p2 s2) :
    (eof = true ↔
      (s.buf.length ≤ p.length ∧ s.ch.sent = [] ∧ s.ch.closed = true ∧ s2.buf = []))
    ∧ (s2.buf ≠ [] → eof = false) := by
  unfold readerChanStringRead at h
  by_cases hb : s.buf.length = 0
  · rw [if_pos hb] at h
    have hc := readFinishS_ok_eof 0 p s.ch n eof p2 s2 h
    constructor
    · rw [hc.1]
      constructor
      · rintro ⟨h1, h2, h3⟩
        exact ⟨by omega, h1, h2, h3⟩
      · rintro ⟨-, h1, h2, h3⟩
        exact ⟨h1, h2, h3⟩
    · exact hc.2
  · by_cases hle : s.buf.length ≤ p.length
    · rw [if_neg hb, if_pos hle] at h
      have hc := readFinishS_ok_eof (goCopy p s.buf).1 (goCopy p s.buf).2 s.ch n eof p2 s2 h
      constructor
      · rw [hc.1]
        constructor
        · rintro ⟨h1, h2, h3⟩
          exact ⟨hle, h1, h2, h3⟩
        · rintro ⟨-, h1, h2, h3⟩
          exact ⟨h1, h2, h3⟩
      · exact hc.2
    · rw [if_neg hb, if_neg hle] at h
      by_cases hp : p.length = 0
      · rw [if_pos hp] at h
        injection h with h1 h2 h3 h4
        subst h2
        subst h4
        constructor
        · constructor
          · intro hf
            exact absurd hf (by simp)
          · rintro ⟨hle2, -, -, -⟩
            exact absurd (by omega : s.buf.length = 0) hb
        · intro _
          rfl
      · rw [if_neg hp] at h
        exact ReadOutcome.noConfusion h

/-- Witness for C4: an empty residual, a closed drained channel and an
empty destination give a call returning EOF. -/
theorem c4_eof_iff_closed_drained_witness :
    (true = true ↔
      (([] : List Nat).length ≤ ([] : List Nat).length
        ∧ ([] : List (List Nat)) = [] ∧ true = true ∧ ([] : List Nat) = []))
    ∧ (([] : List Nat) ≠ [] → true = false) :=
  c4_eof_iff_closed_drained ⟨⟨[], true⟩, []⟩ [] 0 true [] ⟨⟨[], true⟩, []⟩ (by decide)

/-- The receive tails of the two Read variants agree: converting the
received string to its bytes is the identity on byte sequences. -/
theorem readFinish_text_byte_agree (w : Nat) (p : List Nat) (ch : ChanState) :
    readFinishS w p ch = readFinishB w p ch := by
  cases h : recvChan ch with
  | none => simp [readFinishS, readFinishB, h]
  | some val =>
    obtain ⟨v, opn, ch2⟩ := val
    simp [readFinishS, readFinishB, h, stringToBytes]

/-- The two Read variants agree pointwise on every state and destination. -/
theorem read_text_byte_agree (r : RState) (p : List Nat) :
    readerChanStringRead r p = readerChanByteSliceRead r p := by
  unfold readerChanStringRead readerChanByteSliceRead
  rw [readFinish_text_byte_agree, readFinish_text_byte_agree]

/-- C9: for every sequence of string chunks, every channel state, every
residual and every sequence of destination buffers, the text-channel
adapter produces exactly the results (count, EOF flag, destination
contents) of the byte-channel adapter fed the byte representations of the
same chunks. -/
theorem c9_text_byte_equivalence (sent : List GoString) (closed : Bool)
    (buf : List Nat) (ps : List (List Nat)) :
    runReads readerChanStringRead ⟨⟨sent, closed⟩, buf⟩ ps
      = runReads readerChanByteSliceRead ⟨⟨sent.map stringToBytes, closed⟩, buf⟩ ps := by
  have hmap : sent.map stringToBytes = sent := by
    induction sent with
    | nil => rfl
    | cons a t ih => simp [stringToBytes, ih]
  have hfun : readerChanStringRead = readerChanByteSliceRead :=
    funext fun r => funext fun p => read_text_byte_agree r p
  rw [hmap, hfun]
